import Mathlib

/-!
Shallow embedding of `src/index.ts` of the redux-promise-middleware
repository: a JavaScript value model sufficient for the middleware's
dynamic type probing (`typeof`, truthiness, duck-typed promise
detection), and direct translations of `isPromise`, `destructureAction`,
`createAction`, `createPromise` and the default-export `middleware`
factory.  The middleware's interaction with its collaborators (`next`
and `dispatch`) is modelled as an event trace; a thrown JavaScript
exception is modelled as `Except.error`.
-/

namespace RPM

/-- Model of a JavaScript runtime value.  Settled native promises are
modelled by `promiseF` (fulfilled with a value) and `promiseR` (rejected
with an error value).  A zero-argument function is modelled by `func ret
props`: invoking it returns `ret`; `props` are its own properties (a
JavaScript function is an object and may carry properties such as
`then`). -/
inductive JSValue where
  | undefined : JSValue
  | null : JSValue
  | bool : Bool → JSValue
  | num : Int → JSValue
  | str : String → JSValue
  | obj : List (String × JSValue) → JSValue
  | promiseF : JSValue → JSValue
  | promiseR : JSValue → JSValue
  | func : JSValue → List (String × JSValue) → JSValue

/-- A JavaScript object: an insertion-ordered field list. -/
abbrev Obj := List (String × JSValue)

/-- Property lookup on a field list; a missing property reads as
`undefined`, as in JavaScript. -/
def getf : Obj → String → JSValue
  | [], _ => JSValue.undefined
  | (k, v) :: rest, key => if k == key then v else getf rest key

/-- Whether a field list defines a property with the given name
(presence, regardless of the stored value). -/
def hasKey : Obj → String → Bool
  | [], _ => false
  | (k, _) :: rest, key => k == key || hasKey rest key

/-- The effect of a spread-with-override object literal such as
`\x7b ...action, payload: p \x7d`: an existing key keeps its position and
gets the new value, a new key is appended. -/
def setField (o : Obj) (key : String) (v : JSValue) : Obj :=
  if hasKey o key then o.map (fun p => if p.1 == key then (key, v) else p)
  else o ++ [(key, v)]

/-- The JavaScript `typeof` operator on the value model (note
`typeof null` is `"object"`). -/
def typeof : JSValue → String
  | JSValue.undefined => "undefined"
  | JSValue.null => "object"
  | JSValue.bool _ => "boolean"
  | JSValue.num _ => "number"
  | JSValue.str _ => "string"
  | JSValue.obj _ => "object"
  | JSValue.promiseF _ => "object"
  | JSValue.promiseR _ => "object"
  | JSValue.func _ _ => "function"

/-- JavaScript truthiness. -/
def truthy : JSValue → Bool
  | JSValue.undefined => false
  | JSValue.null => false
  | JSValue.bool b => b
  | JSValue.num n => n != 0
  | JSValue.str s => s != ""
  | _ => true

/-- Strict-equality comparison with `null`. -/
def isNullV : JSValue → Bool
  | JSValue.null => true
  | _ => false

/-- Strict-equality comparison with `undefined`. -/
def isUndefV : JSValue → Bool
  | JSValue.undefined => true
  | _ => false

/-- Zero-argument invocation `v()`; throws a `TypeError` when `v` is not
callable. -/
def callFn : JSValue → Except String JSValue
  | JSValue.func ret _ => Except.ok ret
  | _ => Except.error "TypeError: not a function"

/-- Property access `v[key]`.  Access on `null` or `undefined` throws a
`TypeError`; native promises expose a callable `then`; primitive values
are boxed and expose no own properties in this model. -/
def getField (v : JSValue) (key : String) : Except String JSValue :=
  match v with
  | JSValue.undefined => Except.error "TypeError: Cannot read properties of undefined"
  | JSValue.null => Except.error "TypeError: Cannot read properties of null"
  | JSValue.obj fields => Except.ok (getf fields key)
  | JSValue.func _ fields => Except.ok (getf fields key)
  | JSValue.promiseF _ =>
    Except.ok (if key == "then" then JSValue.func JSValue.undefined [] else JSValue.undefined)
  | JSValue.promiseR _ =>
    Except.ok (if key == "then" then JSValue.func JSValue.undefined [] else JSValue.undefined)
  | _ => Except.ok JSValue.undefined

/-- Property access with throws flattened to `undefined`; used only
where the source has already ruled the throwing cases out. -/
def getFieldD (v : JSValue) (key : String) : JSValue :=
  match getField v key with
  | Except.ok r => r
  | Except.error _ => JSValue.undefined

/-- Translation of `isPromise` (src/index.ts, lines 82-84):
`value !== null && typeof value === 'object' && typeof value.then ===
'function'`.  The short-circuiting `&&` guarantees the `then` read never
throws. -/
def isPromise (value : JSValue) : Bool :=
  !isNullV value && typeof value == "object" && typeof (getFieldD value "then") == "function"

/-- Spec-level thenable shape: the value exposes a callable `then`
member, regardless of its `typeof` (so a function carrying a callable
`then` property qualifies, although the code's `isPromise` rejects
it). -/
def promiseLikeShape (v : JSValue) : Bool :=
  typeof (getFieldD v "then") == "function"

/-- Translation of `destructureAction` (src/index.ts, lines 89-116).
The input is the dispatched action object; the result pair is
`(promise, data)`.  An uncaught JavaScript exception is an
`Except.error`: reading `.data` throws when the payload is `null`
(which has `typeof` equal to `"object"`). -/
def destructureAction (action : Obj) : Except String (JSValue × JSValue) :=
  let payload := getf action "payload"
  if isPromise payload then
    Except.ok (payload, JSValue.null)
  else if typeof payload == "function" then
    match callFn payload with
    | Except.error e => Except.error e
    | Except.ok p => Except.ok (p, JSValue.null)
  else if typeof payload == "object" then
    match getField payload "data" with
    | Except.error e => Except.error e
    | Except.ok data =>
      match getField payload "promise" with
      | Except.error e => Except.error e
      | Except.ok pField =>
        match (if typeof pField == "function" then callFn pField else Except.ok JSValue.null) with
        | Except.error e => Except.error e
        | Except.ok invoked =>
          Except.ok ((if isPromise pField then pField else invoked), data)
  else
    Except.ok (JSValue.null, JSValue.null)

/-- Two-element-friendly `Array.prototype.join` element conversion:
`null` and `undefined` elements join as the empty string. -/
def joinElem : JSValue → String
  | JSValue.undefined => ""
  | JSValue.null => ""
  | JSValue.bool b => if b then "true" else "false"
  | JSValue.num n => toString n
  | JSValue.str s => s
  | JSValue.obj _ => "[object Object]"
  | JSValue.promiseF _ => "[object Promise]"
  | JSValue.promiseR _ => "[object Promise]"
  | JSValue.func _ _ => "function"

/-- String pieces interleaved with a separator. -/
def joinParts : List String → String → String
  | [], _ => ""
  | [x], _ => x
  | x :: y :: rest, s => x ++ s ++ joinParts (y :: rest) s

/-- `Array.prototype.join(sep)`: an `undefined` separator falls back to
`","` (ECMAScript). -/
def jsJoin (elems : List JSValue) (sep : JSValue) : String :=
  joinParts (elems.map joinElem)
    (match sep with
     | JSValue.undefined => ","
     | s => joinElem s)

/-- Translation of `createAction` (src/index.ts, lines 122-144).  The
argument object is destructured into `asyncType`, `asyncTypeDelimiter`
and the rest-spread `action`; the built action includes `payload` only
when neither `null` nor `undefined`, `meta` only when its value is not
`undefined`, and `error` only when truthy. -/
def createAction (args : Obj) : Obj :=
  let asyncType := getf args "asyncType"
  let asyncTypeDelimiter := getf args "asyncTypeDelimiter"
  let action := args.filter (fun p => p.1 != "asyncType" && p.1 != "asyncTypeDelimiter")
  let payload := getf action "payload"
  let meta := getf action "meta"
  let error := getf action "error"
  [("type", JSValue.str (jsJoin [getf action "type", asyncType] asyncTypeDelimiter))]
    ++ (if isNullV payload || isUndefV payload then [] else [("payload", payload)])
    ++ (if isUndefV meta then [] else [("meta", meta)])
    ++ (if truthy error then [("error", error)] else [])

/-- An observable interaction of the middleware with its collaborators:
a call to the `next` continuation or a call to the store's `dispatch`. -/
inductive Event where
  | nextCall : Obj → Event
  | dispatchCall : Obj → Event

/-- Translation of the dispatch-time body of `createPromise`
(src/index.ts, lines 153-224), given the captured `types` and
`typeDelimiter` values.  Returns the ordered trace of `next`/`dispatch`
calls together with the call's result: the value returned by `next` for
the synchronous branches (modelled as the forwarded action object), or
the derived promise returned by `promise.then(...)`.  Calling `.then`
on a value that is not a native promise throws a `TypeError`; events
emitted before a throw are kept in the trace. -/
def runStep (types typeDelimiter : JSValue) (action : Obj) : List Event × Except String JSValue :=
  match destructureAction action with
  | Except.error e => ([], Except.error e)
  | Except.ok (promise, data) =>
    if isPromise promise then
      let fwd := setField action "payload" promise
      ([Event.nextCall fwd], Except.ok (JSValue.obj fwd))
    else if !truthy promise then
      ([Event.nextCall action], Except.ok (JSValue.obj action))
    else
      match getField types "pending" with
      | Except.error e => ([], Except.error e)
      | Except.ok pendingTok =>
        let pendingAction := createAction
          [("type", getf action "type"), ("payload", data), ("meta", getf action "meta"),
           ("error", JSValue.bool false), ("asyncType", pendingTok),
           ("asyncTypeDelimiter", typeDelimiter)]
        let pendingEv := Event.nextCall pendingAction
        match promise with
        | JSValue.promiseF v =>
          match getField types "fulfilled" with
          | Except.error e => ([pendingEv], Except.error e)
          | Except.ok fulfilledTok =>
            let fulfilledAction := createAction
              [("type", getf action "type"), ("payload", v), ("meta", getf action "meta"),
               ("error", JSValue.bool false), ("asyncType", fulfilledTok),
               ("asyncTypeDelimiter", typeDelimiter)]
            ([pendingEv, Event.dispatchCall fulfilledAction],
             Except.ok (JSValue.promiseF (JSValue.obj
               [("value", v), ("action", JSValue.obj fulfilledAction)])))
        | JSValue.promiseR err =>
          match getField types "rejected" with
          | Except.error e => ([pendingEv], Except.error e)
          | Except.ok rejectedTok =>
            let rejectedAction := createAction
              [("type", getf action "type"), ("payload", err), ("meta", getf action "meta"),
               ("error", JSValue.bool true), ("asyncType", rejectedTok),
               ("asyncTypeDelimiter", typeDelimiter)]
            ([pendingEv, Event.dispatchCall rejectedAction],
             Except.ok (JSValue.promiseR err))
        | _ => ([pendingEv], Except.error "TypeError: promise.then is not a function")

/-- The value of the `DefaultTypes` enum object (src/index.ts, lines
69-73). -/
def defaultTypesObj : JSValue :=
  JSValue.obj
    [("pending", JSValue.str "PENDING"), ("fulfilled", JSValue.str "FULFILLED"),
     ("rejected", JSValue.str "REJECTED")]

/-- The middleware closure built by `createPromise`: the `types` and
`typeDelimiter` values captured from the configuration. -/
structure PromiseMiddleware where
  types : JSValue
  typeDelimiter : JSValue

/-- Running the middleware closure on a dispatched action. -/
def PromiseMiddleware.run (m : PromiseMiddleware) (action : Obj) :
    List Event × Except String JSValue :=
  runStep m.types m.typeDelimiter action

/-- Translation of `createPromise` (src/index.ts, lines 150-151): the
default configuration object replaces the argument only when no
argument is given at all; otherwise `types` and `typeDelimiter` are
read off the supplied object, reading as `undefined` when absent. -/
def createPromise (config : Option Obj) : PromiseMiddleware :=
  let cfg := config.getD [("types", defaultTypesObj), ("typeDelimiter", JSValue.str "_")]
  { types := getf cfg "types", typeDelimiter := getf cfg "typeDelimiter" }

/-- Translation of the default-export `middleware` factory
(src/index.ts, lines 231-256): when the `dispatch` member is a function
it returns the default-configured middleware continuation, otherwise it
(possibly after logging a development-mode message) returns `null`,
modelled as `none`. -/
def middleware (dispatch : JSValue) : Option PromiseMiddleware :=
  if typeof dispatch == "function" then some (createPromise none) else none

/-- The action `\x7btype: "FETCH", payload: Promise.resolve(42)\x7d`. -/
def fetchPromiseAction : Obj :=
  [("type", JSValue.str "FETCH"), ("payload", JSValue.promiseF (JSValue.num 42))]

/-- The error value `Error("x")`. -/
def errorX : JSValue :=
  JSValue.obj [("name", JSValue.str "Error"), ("message", JSValue.str "x")]

/-- The action `\x7btype: "FETCH", payload: Promise.reject(Error("x"))\x7d`. -/
def fetchRejectAction : Obj :=
  [("type", JSValue.str "FETCH"), ("payload", JSValue.promiseR errorX)]

/-- The action `\x7btype: "FETCH", payload: \x7bpromise: Promise.resolve(1),
data: "optimistic"\x7d\x7d`. -/
def optimisticAction : Obj :=
  [("type", JSValue.str "FETCH"),
   ("payload", JSValue.obj
     [("promise", JSValue.promiseF (JSValue.num 1)), ("data", JSValue.str "optimistic")])]

/-- An action whose payload is `null`. -/
def nullPayloadAction : Obj := [("type", JSValue.str "A"), ("payload", JSValue.null)]

/-- Claim C1.  The claim is false of the code: because step 2 of
`createPromise` (line 164) forwards the action whenever the extracted
`promise` is itself promise-like — which holds for every real promise
payload — dispatching `\x7btype: "FETCH", payload: Promise.resolve(42)\x7d`
under the default configuration produces exactly one `next` call
carrying the original action (payload still the promise), with the
`next` result returned synchronously; no `FETCH_PENDING` action, no
`FETCH_FULFILLED` action and no promise resolving to
`\x7bvalue: 42, action: ...\x7d` are ever produced. -/
theorem c1_promise_payload_is_passed_through :
    (createPromise none).run fetchPromiseAction =
      ([Event.nextCall fetchPromiseAction], Except.ok (JSValue.obj fetchPromiseAction)) := rfl

/-- Claim C2.  The claim is false of the code on a `null` payload: since
`typeof null` is `"object"`, `destructureAction` enters the composite
branch and the read `payload.data` throws a `TypeError` instead of
returning the pair `(null, null)`. -/
theorem c2_null_payload_throws :
    destructureAction nullPayloadAction =
      Except.error "TypeError: Cannot read properties of null" := rfl

/-- Claim C3.  The claim is false of the code: a rejected-promise
payload takes the same inverted step-2 passthrough as any promise, so
dispatching `\x7btype: "FETCH", payload: Promise.reject(Error("x"))\x7d`
produces exactly one `next` call with the original action and returns
`next`'s result synchronously; no pending action, no `FETCH_REJECTED`
action with `error: true`, and no rejecting promise are produced. -/
theorem c3_rejected_promise_is_passed_through :
    (createPromise none).run fetchRejectAction =
      ([Event.nextCall fetchRejectAction], Except.ok (JSValue.obj fetchRejectAction)) := rfl

/-- Claim C5.  The claim is false of the code: for the composite payload
`\x7bpromise: Promise.resolve(1), data: "optimistic"\x7d` the destructured
promise is promise-like, so step 2 forwards the action with its payload
replaced by that promise; no pending action — in particular none with
payload `"optimistic"` — is emitted. -/
theorem c5_no_pending_for_composite_payload :
    (createPromise none).run optimisticAction =
      ([Event.nextCall [("type", JSValue.str "FETCH"),
                        ("payload", JSValue.promiseF (JSValue.num 1))]],
       Except.ok (JSValue.obj [("type", JSValue.str "FETCH"),
                               ("payload", JSValue.promiseF (JSValue.num 1))])) := rfl

/-- Key presence distributes over list append. -/
theorem hasKey_append (l1 l2 : Obj) (k : String) :
    hasKey (l1 ++ l2) k = (hasKey l1 k || hasKey l2 k) := by
  induction l1 with
  | nil => simp [hasKey]
  | cons x rest ih => cases x; simp [hasKey, ih, Bool.or_assoc]

/-- A function value is never promise-like for the code's `isPromise`:
its `typeof` is `"function"`, not `"object"`. -/
theorem isPromise_func (r : JSValue) (f : Obj) : isPromise (JSValue.func r f) = false := rfl

/-- Claim C4.  In the composite-payload branch of `destructureAction`,
when `payload.promise` is a callable that also has the promise-like
shape (a callable `then` member), the callable sub-case wins: the field
is invoked and its return value becomes the extracted promise, while
`optimisticData` is read from `payload.data`. -/
theorem c4_callable_promise_field_wins (fields thenFields : Obj) (ret : JSValue)
    (hfun : getf fields "promise" = JSValue.func ret thenFields)
    (_hthen : promiseLikeShape (JSValue.func ret thenFields) = true)
    (hnotp : isPromise (JSValue.obj fields) = false) :
    destructureAction [("payload", JSValue.obj fields)] =
      Except.ok (ret, getf fields "data") := by
  simp [destructureAction, getf, typeof, hnotp, getField, hfun, callFn, isPromise_func]

/-- Witness for C4: a payload whose `promise` field is a function that
carries its own callable `then` property. -/
theorem c4_witness :
    destructureAction
      [("payload", JSValue.obj
        [("promise", JSValue.func (JSValue.str "RESULT") [("then", JSValue.func JSValue.undefined [])]),
         ("data", JSValue.str "d")])] =
      Except.ok (JSValue.str "RESULT", JSValue.str "d") :=
  c4_callable_promise_field_wins _ _ _ rfl rfl rfl

/-- Auxiliary lemma: for an action whose payload has a `typeof` that is
neither `"object"` nor `"function"` — a number, string, boolean or
`undefined`, but not `null`, whose `typeof` is `"object"` — the
middleware performs exactly one forwarding call, `next` with the
original action unchanged, and returns its result. -/
theorem scalar_nonnull_payload_passthrough (types typeDelimiter : JSValue) (action : Obj)
    (hobj : typeof (getf action "payload") ≠ "object")
    (hfn : typeof (getf action "payload") ≠ "function") :
    runStep types typeDelimiter action =
      ([Event.nextCall action], Except.ok (JSValue.obj action)) := by
  cases hp : getf action "payload" <;>
    simp_all [runStep, destructureAction, isPromise, typeof, truthy, isNullV, getFieldD,
      getField]

/-- Instance of the auxiliary passthrough lemma at a numeric payload. -/
theorem scalar_nonnull_payload_passthrough_example :
    runStep defaultTypesObj (JSValue.str "_")
        [("type", JSValue.str "ADD"), ("payload", JSValue.num 7)] =
      ([Event.nextCall [("type", JSValue.str "ADD"), ("payload", JSValue.num 7)]],
       Except.ok (JSValue.obj [("type", JSValue.str "ADD"), ("payload", JSValue.num 7)])) :=
  scalar_nonnull_payload_passthrough _ _ _ (by decide) (by decide)

/-- Claim C6.  The claim is false of the code at a `null` payload, which
the spec's Destructurer rules place among the non-promise,
non-function, non-object payloads (rule 3 calls an object a non-null
object and rule 4 groups `null` with the scalars): instead of
forwarding the dispatched action unchanged, the middleware forwards
nothing at all — since `typeof null` is `"object"`,
`destructureAction` throws a `TypeError` before any `next` call, and
the event trace is empty.  For the remaining in-scope payload shapes
(number, string, boolean, `undefined`) the claimed passthrough does
hold, per `scalar_nonnull_payload_passthrough`. -/
theorem c6_null_payload_forwards_nothing :
    (createPromise none).run nullPayloadAction =
      ([], Except.error "TypeError: Cannot read properties of null") := rfl

/-- Argument object for the Action Builder whose `meta` property is
present but holds the value `undefined`. -/
def metaUndefinedArgs : Obj :=
  [("type", JSValue.str "A"), ("meta", JSValue.undefined),
   ("asyncType", JSValue.str "PENDING"), ("asyncTypeDelimiter", JSValue.str "_")]

/-- Counterexample to claim C7 as stated: the source arguments define a
`meta` property (with value `undefined`), yet the built action carries
no `meta` field — presence of the property is not what the code tests. -/
theorem c7_counterexample :
    hasKey metaUndefinedArgs "meta" = true
    ∧ hasKey (createAction metaUndefinedArgs) "meta" = false := ⟨rfl, rfl⟩

/-- Claim C7 (amended).  The Action Builder includes the `meta` field
iff the value of `action.meta` is not `undefined`; a `meta` property
present with value `undefined` is treated exactly like an absent one,
so the absence-versus-`undefined` distinction is not preserved. -/
theorem c7_meta_included_iff_value_not_undefined (ty pl m er aT aD : JSValue) :
    hasKey (createAction
        [("type", ty), ("payload", pl), ("meta", m), ("error", er),
         ("asyncType", aT), ("asyncTypeDelimiter", aD)]) "meta" = !isUndefV m := by
  cases h1 : (isNullV pl || isUndefV pl) <;> cases h2 : isUndefV m <;>
    cases h3 : truthy er <;>
      simp [createAction, getf, hasKey_append, hasKey, h1, h2, h3]

/-- Claim C8.  For the Action Builder: the built type is the base type,
the delimiter and the async token concatenated; the `payload` field is
present iff the payload value is neither `null` nor `undefined`; and
with a boolean error flag, the `error` field is present iff the flag is
`true`. -/
theorem c8_builder_field_policy (t d a : String) (pl m : JSValue) (b : Bool) :
    getf (createAction
        [("type", JSValue.str t), ("payload", pl), ("meta", m), ("error", JSValue.bool b),
         ("asyncType", JSValue.str a), ("asyncTypeDelimiter", JSValue.str d)]) "type"
      = JSValue.str (t ++ d ++ a)
    ∧ hasKey (createAction
        [("type", JSValue.str t), ("payload", pl), ("meta", m), ("error", JSValue.bool b),
         ("asyncType", JSValue.str a), ("asyncTypeDelimiter", JSValue.str d)]) "payload"
      = !(isNullV pl || isUndefV pl)
    ∧ hasKey (createAction
        [("type", JSValue.str t), ("payload", pl), ("meta", m), ("error", JSValue.bool b),
         ("asyncType", JSValue.str a), ("asyncTypeDelimiter", JSValue.str d)]) "error"
      = b := by
  refine ⟨rfl, ?_, ?_⟩ <;>
    cases h1 : (isNullV pl || isUndefV pl) <;> cases h2 : isUndefV m <;> cases b <;>
      simp [createAction, getf, hasKey_append, hasKey, truthy, h1, h2]

/-- The action `\x7btype: "FETCH", payload: () => 1\x7d`: its payload is a
zero-argument function returning a non-promise, the only payload shape
with which the pending branch of the sequencer is reachable. -/
def fnPayloadAction : Obj :=
  [("type", JSValue.str "FETCH"), ("payload", JSValue.func (JSValue.num 1) [])]

/-- A configuration object that sets `types` but omits
`typeDelimiter`. -/
def typesOnlyConfig : Obj := [("types", defaultTypesObj)]

/-- Claim C9.  Defaulting is all-or-nothing: for any explicitly passed
configuration that carries the default `types` but omits
`typeDelimiter`, the captured delimiter is `undefined`, so the joined
pending type name uses the `Array.join` fallback separator `","`
(giving `"FETCH,PENDING"`), whereas with no configuration argument at
all the default delimiter `"_"` applies (giving `"FETCH_PENDING"`). -/
theorem c9_explicit_config_is_not_merged (cfg : Obj)
    (htypes : getf cfg "types" = defaultTypesObj)
    (hnodelim : getf cfg "typeDelimiter" = JSValue.undefined) :
    (createPromise (some cfg)).typeDelimiter = JSValue.undefined
    ∧ ((createPromise (some cfg)).run fnPayloadAction).1
        = [Event.nextCall [("type", JSValue.str "FETCH,PENDING")]]
    ∧ ((createPromise none).run fnPayloadAction).1
        = [Event.nextCall [("type", JSValue.str "FETCH_PENDING")]] := by
  have h : createPromise (some cfg) =
      { types := defaultTypesObj, typeDelimiter := JSValue.undefined } := by
    simp [createPromise, htypes, hnodelim]
  rw [h]
  exact ⟨rfl, rfl, rfl⟩

/-- Witness for C9 at the concrete configuration `\x7btypes:
DefaultTypes\x7d`. -/
theorem c9_witness :
    (createPromise (some typesOnlyConfig)).typeDelimiter = JSValue.undefined
    ∧ ((createPromise (some typesOnlyConfig)).run fnPayloadAction).1
        = [Event.nextCall [("type", JSValue.str "FETCH,PENDING")]]
    ∧ ((createPromise none).run fnPayloadAction).1
        = [Event.nextCall [("type", JSValue.str "FETCH_PENDING")]] :=
  c9_explicit_config_is_not_merged typesOnlyConfig rfl rfl

/-- Claim C10.  The default-export factory returns `null` (modelled as
`none`) exactly when the supplied `dispatch` member is not a function,
and returns the default-configured middleware continuation when it
is. -/
theorem c10_factory_requires_dispatch_function (dispatch : JSValue) :
    (middleware dispatch = none ↔ typeof dispatch ≠ "function")
    ∧ (typeof dispatch = "function" → middleware dispatch = some (createPromise none)) := by
  by_cases h : typeof dispatch = "function" <;> simp [middleware, h]

/-- Witness for C10: a plain object `dispatch` yields `null`; a function
`dispatch` yields the default middleware. -/
theorem c10_witness :
    middleware (JSValue.obj []) = none
    ∧ middleware (JSValue.func JSValue.undefined []) = some (createPromise none) :=
  ⟨(c10_factory_requires_dispatch_function (JSValue.obj [])).1.mpr (by decide),
   (c10_factory_requires_dispatch_function (JSValue.func JSValue.undefined [])).2 rfl⟩

end RPM
